import Mathlib

/-!
Verification development for the `caudio` crate: a shallow embedding of its
buffer-list construction, audio-queue buffer pool, audio-unit lifecycle state
machine, stream-format value object and OS-status error conversion, together
with theorems settling the specification claims about them.

Machine integers are modelled as `Nat` with an explicit `% 2 ^ 32` wherever the
source casts to `u32`.  Rust panics (a failed `assert!`, an integer division by
zero) are modelled as `none`/`Option` results.  `f64` values that the source
only stores and reads back verbatim (the sample rate) are modelled as exact
rationals.
-/

/-- Truncating cast to `u32`, as performed by Rust's `as u32`. -/
def toU32 (n : Nat) : Nat := n % 2 ^ 32

/-! ## Error tables (`src/error.rs`) -/

/-- Embeds the `AudioError` enum of `error.rs`. -/
inductive AudioError where
  | unimplemented
  | fileNotFound
  | filePermission
  | tooManyFilesOpen
  | badFilePath
  | param
  | memFull
deriving DecidableEq

/-- Embeds the `AudioCodecError` enum of `error.rs`. -/
inductive AudioCodecError where
  | unspecified
  | unknownProperty
  | badPropertySize
  | illegalOperation
  | unsupportedFormat
  | state
  | notEnoughBufferSpace
deriving DecidableEq

/-- Embeds the `AudioFormatError` enum of `error.rs`. -/
inductive AudioFormatError where
  | unspecified
  | unsupportedProperty
  | badPropertySize
  | badSpecifierSize
  | unsupportedDataFormat
  | unknownFormat
deriving DecidableEq

/-- Embeds the `AudioUnitError` enum of `error.rs`. -/
inductive AudioUnitError where
  | invalidProperty
  | invalidParameter
  | invalidElement
  | noConnection
  | failedInitialization
  | tooManyFramesToProcess
  | invalidFile
  | formatNotSupported
  | uninitialized
  | invalidScope
  | propertyNotWritable
  | cannotDoInCurrentContext
  | invalidPropertyValue
  | propertyNotInUse
  | initializedErr
  | invalidOfflineRender
  | unauthorized
deriving DecidableEq

/-- Embeds the `CAError` enum of `error.rs`. -/
inductive CAError where
  | audioError (e : AudioError)
  | audioCodecError (e : AudioCodecError)
  | audioFormatError (e : AudioFormatError)
  | audioUnitError (e : AudioUnitError)
  | other (msg : String)
deriving DecidableEq

/-- Embeds `AudioError::from_os_status` (`error.rs`): the fixed status table. -/
def AudioError.from_os_status (status : Int) : Option AudioError :=
  if status = -4 then some .unimplemented
  else if status = -43 then some .fileNotFound
  else if status = -54 then some .filePermission
  else if status = -42 then some .tooManyFilesOpen
  else if status = 561017960 then some .badFilePath
  else if status = -50 then some .param
  else if status = -108 then some .memFull
  else none

/-- Embeds `AudioCodecError::from_os_status` (`error.rs`). -/
def AudioCodecError.from_os_status (status : Int) : Option AudioCodecError :=
  if status = 2003329396 then some .unspecified
  else if status = 2003332927 then some .unknownProperty
  else if status = 561211770 then some .badPropertySize
  else if status = 1852797029 then some .illegalOperation
  else if status = 560226676 then some .unsupportedFormat
  else if status = 561214580 then some .state
  else if status = 560100710 then some .notEnoughBufferSpace
  else none

/-- Embeds `AudioFormatError::from_os_status` (`error.rs`): only the
`UnsupportedDataFormat` code is mapped. -/
def AudioFormatError.from_os_status (status : Int) : Option AudioFormatError :=
  if status = 1718449215 then some .unsupportedDataFormat
  else none

/-- Embeds `AudioUnitError::from_os_status` (`error.rs`). -/
def AudioUnitError.from_os_status (status : Int) : Option AudioUnitError :=
  if status = -10879 then some .invalidProperty
  else if status = -10878 then some .invalidParameter
  else if status = -10877 then some .invalidElement
  else if status = -10876 then some .noConnection
  else if status = -10875 then some .failedInitialization
  else if status = -10874 then some .tooManyFramesToProcess
  else if status = -10871 then some .invalidFile
  else if status = -10868 then some .formatNotSupported
  else if status = -10867 then some .uninitialized
  else if status = -10866 then some .invalidScope
  else if status = -10865 then some .propertyNotWritable
  else if status = -10863 then some .cannotDoInCurrentContext
  else if status = -10851 then some .invalidPropertyValue
  else if status = -10850 then some .propertyNotInUse
  else if status = -10849 then some .initializedErr
  else if status = -10848 then some .invalidOfflineRender
  else if status = -10847 then some .unauthorized
  else none

/-- Modelled from the spec: the typed error a nonzero status is converted to.
The crate-level `CAError::from_os_status` used by the `try_os_status!` macro is
not under `src/` (only its call site in `lib.rs` is); the spec says a nonzero
status "is looked up against fixed tables and surfaced as a typed error;
unrecognized codes must still produce a typed unknown error rather than being
swallowed".  The lookup consults the four per-domain tables of `error.rs`
(which are disjoint, so the order is immaterial) and falls back to the
catch-all `Other` variant. -/
def caErrorOfStatus (status : Int) : CAError :=
  match AudioError.from_os_status status with
  | some e => .audioError e
  | none =>
    match AudioCodecError.from_os_status status with
    | some e => .audioCodecError e
    | none =>
      match AudioFormatError.from_os_status status with
      | some e => .audioFormatError e
      | none =>
        match AudioUnitError.from_os_status status with
        | some e => .audioUnitError e
        | none => .other "unknown OS status"

/-- Modelled from the spec: `CAError::from_os_status`, as invoked by the
`try_os_status!` macro of `lib.rs` at every host call site: a zero status is
success, a nonzero status becomes the matching typed error. -/
def CAError.from_os_status (status : Int) : Except CAError Unit :=
  if status = 0 then .ok () else .error (caErrorOfStatus status)

/-! ## Owned buffer lists (`src/unit/buffer.rs`) -/

/-- Embeds the `AudioBuffer<S>` descriptor of `unit/buffer.rs`: the `mBuffers`
slot overlay holding a channel count and a byte size (both `u32`) plus the data
pointer, modelled as the start offset (in samples) into the shared sample
allocation. -/
structure AudioBuffer where
  channels : Nat
  data_byte_size : Nat
  dataOff : Nat
deriving DecidableEq

/-- Embeds the `AudioBufferList<S>` wrapper of `unit/buffer.rs` after owned
construction: the `mNumberBuffers` header field (`u32`), the descriptor slots
actually written by the constructor, and the length (in samples) of the single
contiguous data allocation. -/
structure AudioBufferList where
  mNumberBuffers : Nat
  entries : List AudioBuffer
  dataLen : Nat
deriving DecidableEq

/-- Embeds `AudioBufferList::new(buffers, channels, frames)` from
`unit/buffer.rs` for a sample type of size `sz` bytes.  The source asserts
`buffers >= 1` (modelled as `none` on failure), writes `buffers as u32` into
`mNumberBuffers`, then fills `buffers` descriptor slots, each with
`channels as u32`, `bytes_per_buffer as u32` and a chunk of
`channels * frames` samples split off the single data allocation of
`buffers * channels * frames` samples. -/
def AudioBufferList.new (buffers channels frames sz : Nat) : Option AudioBufferList :=
  if 1 ≤ buffers then
    some
      { mNumberBuffers := toU32 buffers
        entries :=
          (List.range buffers).map fun k =>
            { channels := toU32 channels
              data_byte_size := toU32 (channels * frames * sz)
              dataOff := k * (channels * frames) }
        dataLen := buffers * (channels * frames) }
  else none

/-- Embeds `AudioBufferList::buffers` (`unit/buffer.rs`): a slice of
`mNumberBuffers` descriptors read back from the header. -/
def AudioBufferList.buffers (l : AudioBufferList) : List AudioBuffer :=
  l.entries.take l.mNumberBuffers

/-- Embeds `<AudioBufferList as Deref>::deref(..).len()`: the length of the
slice returned by `buffers()`. -/
def AudioBufferList.len (l : AudioBufferList) : Nat :=
  l.buffers.length

/-- Embeds `AudioBuffer::len()` (via `Deref` to `[S]` in `unit/buffer.rs`):
`data_byte_size / size_of::<S>()`. -/
def AudioBuffer.sampleLen (b : AudioBuffer) (sz : Nat) : Nat :=
  b.data_byte_size / sz

/-- Embeds `AudioBuffer::frames` (`unit/buffer.rs`): `len() / channels()`.
Rust's integer division panics on a zero divisor, modelled as `none`. -/
def AudioBuffer.frames (b : AudioBuffer) (sz : Nat) : Option Nat :=
  if b.channels = 0 then none else some (b.sampleLen sz / b.channels)

/-! ## Audio-queue buffers and `resize` (`src/queue.rs`) -/

/-- Embeds the host `AudioQueueBuffer` record as seen through
`AudioQueueBuffer<S>` in `queue.rs`: the fixed byte capacity and the current
byte size, both `u32` fields of the host struct. -/
structure AudioQueueBuffer where
  mAudioDataBytesCapacity : Nat
  mAudioDataByteSize : Nat
deriving DecidableEq

/-- Embeds `AudioQueueBuffer::resize(len)` (`queue.rs`) for a sample type of
size `sz` bytes: clamp `len` to `[0, capacity_in_samples]` and store the
resulting byte size (written back through a `u32` field). -/
def AudioQueueBuffer.resize (b : AudioQueueBuffer) (sz len : Nat) : AudioQueueBuffer :=
  let maxLen := b.mAudioDataBytesCapacity / sz
  let clamped := min (max len 0) maxLen
  let byte_size := clamped * sz
  { b with mAudioDataByteSize := toU32 byte_size }

/-- Embeds `<AudioQueueBuffer as Deref>::deref(..).len()` (`queue.rs`):
`mAudioDataByteSize / size_of::<S>()`. -/
def AudioQueueBuffer.currentLen (b : AudioQueueBuffer) (sz : Nat) : Nat :=
  b.mAudioDataByteSize / sz

/-! ## The audio-queue output buffer pool (`src/queue.rs`)

`AudioQueueOutput` owns `buffer_count` buffers addressed by index; a `mpsc`
channel carries the indices of free buffers ("ready-queue").  `new` allocates
the buffers and sends every index `0 .. buffer_count-1` on the channel;
`request_buffer` receives the next free index and wraps it in a
`BorrowedAudioQueueBuffer` handle; dropping the handle without enqueueing sends
the index back; `enqueue` first marks the handle `was_enqueued` and then asks
the host to enqueue the buffer, so on a host failure the index goes nowhere;
the output callback sends a completed buffer's index (read from `mUserData`)
back on the channel.  The state below records where every index currently is.
-/

/-- The abstract state of one `AudioQueueOutput` pool: the FIFO content of the
ready-queue channel, the indices held by `BorrowedAudioQueueBuffer` handles,
the indices owned by the host after a successful `AudioQueueEnqueueBuffer`,
and the indices abandoned by a failed enqueue (`was_enqueued` was already set,
so the drop handler does not return them). -/
structure PoolState where
  ready : List Nat
  held : List Nat
  hostOwned : List Nat
  lost : List Nat
deriving DecidableEq

/-- Embeds the creation loop of `AudioQueueOutput::new` (`queue.rs`): every
index `0 .. buffer_count-1` is sent on the channel in order; nothing is held,
host-owned or lost. -/
def PoolState.start (n : Nat) : PoolState :=
  { ready := List.range n, held := [], hostOwned := [], lost := [] }

/-- One observable transition of the pool (`queue.rs`):

* `request`: `request_buffer` receives the front index of the channel and
  returns a `BorrowedAudioQueueBuffer` holding it;
* `dropNotEnqueued`: a held handle is dropped with `was_enqueued == false`;
  its drop handler sends the index back on the channel;
* `enqueueOk`: `BorrowedAudioQueueBuffer::enqueue` sets `was_enqueued`, the
  host call succeeds, and the host now owns the buffer;
* `enqueueFailed`: `BorrowedAudioQueueBuffer::enqueue` sets `was_enqueued`
  first, then the host call returns a nonzero status; the handle is consumed
  and its drop handler sends nothing, so the index is lost to the pool;
* `completion`: the host finishes with a buffer it owns and the output
  callback sends its index (from `mUserData`) back on the channel. -/
inductive PoolStep : PoolState → PoolState → Prop where
  | request (i : Nat) (rest held hostOwned lost : List Nat) :
      PoolStep ⟨i :: rest, held, hostOwned, lost⟩ ⟨rest, i :: held, hostOwned, lost⟩
  | dropNotEnqueued (s : PoolState) (i : Nat) (h : i ∈ s.held) :
      PoolStep s ⟨s.ready ++ [i], s.held.erase i, s.hostOwned, s.lost⟩
  | enqueueOk (s : PoolState) (i : Nat) (h : i ∈ s.held) :
      PoolStep s ⟨s.ready, s.held.erase i, i :: s.hostOwned, s.lost⟩
  | enqueueFailed (s : PoolState) (i : Nat) (h : i ∈ s.held) :
      PoolStep s ⟨s.ready, s.held.erase i, s.hostOwned, i :: s.lost⟩
  | completion (s : PoolState) (i : Nat) (h : i ∈ s.hostOwned) :
      PoolStep s ⟨s.ready ++ [i], s.held, s.hostOwned.erase i, s.lost⟩

/-- Zero or more pool transitions. -/
inductive PoolSteps : PoolState → PoolState → Prop where
  | refl (s : PoolState) : PoolSteps s s
  | tail {s t u : PoolState} : PoolSteps s t → PoolStep t u → PoolSteps s u

/-- The pool states reachable from creation with `n` buffers. -/
def PoolReachable (n : Nat) (s : PoolState) : Prop :=
  PoolSteps (PoolState.start n) s

/-- How many times index `i` is present across the four locations. -/
def PoolState.countAll (s : PoolState) (i : Nat) : Nat :=
  s.ready.count i + s.held.count i + s.hostOwned.count i + s.lost.count i

theorem list_count_cons (a b : Nat) (l : List Nat) :
    (b :: l).count a = l.count a + if a = b then 1 else 0 := by
  rw [List.count_cons]
  by_cases h : a = b <;> simp [h, Ne.symm]

theorem list_count_erase (a b : Nat) (l : List Nat) :
    (l.erase a).count b = l.count b - if a = b then 1 else 0 := by
  rw [List.count_erase]
  by_cases h : a = b <;> simp [h, Ne.symm]

theorem list_count_range (a n : Nat) : (List.range n).count a = if a < n then 1 else 0 := by
  by_cases h : a < n
  · simp [h, List.count_eq_one_of_mem (List.nodup_range n) (List.mem_range.2 h)]
  · simp [h, List.count_eq_zero_of_not_mem (fun hm => h (List.mem_range.1 hm))]

/-- Every transition moves one index between locations, so the total count of
every index is preserved. -/
theorem PoolStep.countAll_step {s t : PoolState} (h : PoolStep s t) (j : Nat) :
    t.countAll j = s.countAll j := by
  cases h with
  | request i rest held hostOwned lost =>
      simp only [PoolState.countAll, list_count_cons]
      omega
  | dropNotEnqueued s i h =>
      have hpos : 0 < s.held.count i := List.count_pos_iff.2 h
      simp only [PoolState.countAll, List.count_append, list_count_erase,
        List.count_singleton']
      rcases eq_or_ne j i with hij | hij
      · subst hij
        simp only [if_true, eq_self_iff_true]
        omega
      · simp only [if_neg hij, if_neg (Ne.symm hij)]
        omega
  | enqueueOk s i h =>
      have hpos : 0 < s.held.count i := List.count_pos_iff.2 h
      simp only [PoolState.countAll, list_count_cons, list_count_erase]
      rcases eq_or_ne j i with hij | hij
      · subst hij
        simp only [if_true, eq_self_iff_true]
        omega
      · simp only [if_neg hij, if_neg (Ne.symm hij)]
        omega
  | enqueueFailed s i h =>
      have hpos : 0 < s.held.count i := List.count_pos_iff.2 h
      simp only [PoolState.countAll, list_count_cons, list_count_erase]
      rcases eq_or_ne j i with hij | hij
      · subst hij
        simp only [if_true, eq_self_iff_true]
        omega
      · simp only [if_neg hij, if_neg (Ne.symm hij)]
        omega
  | completion s i h =>
      have hpos : 0 < s.hostOwned.count i := List.count_pos_iff.2 h
      simp only [PoolState.countAll, List.count_append, list_count_erase,
        List.count_singleton']
      rcases eq_or_ne j i with hij | hij
      · subst hij
        simp only [if_true, eq_self_iff_true]
        omega
      · simp only [if_neg hij, if_neg (Ne.symm hij)]
        omega

theorem PoolSteps.countAll_steps {s t : PoolState} (h : PoolSteps s t) (j : Nat) :
    t.countAll j = s.countAll j := by
  induction h with
  | refl => rfl
  | tail _ hstep ih => rw [hstep.countAll_step j, ih]

/-- The central pool invariant: in every reachable state every index `< n`
occurs exactly once across ready-queue, handle-held, host-owned and lost, and
no other index occurs at all. -/
theorem PoolReachable.countAll_reachable {n : Nat} {s : PoolState} (h : PoolReachable n s) (j : Nat) :
    s.countAll j = if j < n then 1 else 0 := by
  rw [PoolSteps.countAll_steps h j]
  simp [PoolState.countAll, PoolState.start, list_count_range]

theorem PoolSteps.trans {s t u : PoolState} (h₁ : PoolSteps s t) (h₂ : PoolSteps t u) :
    PoolSteps s u := by
  induction h₂ with
  | refl => exact h₁
  | tail _ hstep ih => exact PoolSteps.tail ih hstep

/-- Once an index has been lost by a failed enqueue it stays lost. -/
theorem PoolStep.lost_mono_step {s t : PoolState} (h : PoolStep s t) {i : Nat} (hi : i ∈ s.lost) :
    i ∈ t.lost := by
  cases h <;> simp_all

theorem PoolSteps.lost_mono_steps {s t : PoolState} (h : PoolSteps s t) {i : Nat} (hi : i ∈ s.lost) :
    i ∈ t.lost := by
  induction h with
  | refl => exact hi
  | tail _ hstep ih => exact hstep.lost_mono_step ih

/-! ## Stream formats (`src/stream_format.rs`)

`StreamFormat::new` builds an `AudioStreamBasicDescription` and the accessors
read it back.  The helper modules `format` (`AudioFormat`, `LinearPcmFlags`)
and `sample_format` (`SampleFormat`, `Sample`) are part of this crate but are
not under `src/`; they are modelled from the spec below. -/

/-- Modelled from the spec: the linear-PCM format flags ("interleaving/packing
flags", spec section 6), a `u32` bit set.  Only the named bits are used by the
code under `src/`; the bit-set-to-`u32` round-trip is exact, so the set is
modelled as one boolean per named bit. -/
structure LinearPcmFlags where
  isFloat : Bool
  isSignedInteger : Bool
  isPacked : Bool
  isNonInterleaved : Bool
deriving DecidableEq

/-- The union `flags | LinearPcmFlags::IS_PACKED` taken by `StreamFormat::new`. -/
def LinearPcmFlags.withPacked (f : LinearPcmFlags) : LinearPcmFlags :=
  { f with isPacked := true }

/-- Modelled from the spec: the sample element type tag ("sample element
size/format tag", spec section 6) of the missing `sample_format` module; the
crate's tests use `SampleFormat::F32`. -/
inductive SampleFormat where
  | F32
  | F64
  | I16
  | I32
deriving DecidableEq

/-- Modelled from the spec: `SampleFormat::size_in_bytes` (sample element
size). -/
def SampleFormat.size_in_bytes : SampleFormat → Nat
  | .F32 => 4
  | .F64 => 8
  | .I16 => 2
  | .I32 => 4

/-- Modelled from the spec: `SampleFormat::size_in_bits`. -/
def SampleFormat.size_in_bits : SampleFormat → Nat
  | .F32 => 32
  | .F64 => 64
  | .I16 => 16
  | .I32 => 32

/-- Whether the sample element type is a floating-point type. -/
def SampleFormat.isFloat : SampleFormat → Bool
  | .F32 => true
  | .F64 => true
  | .I16 => false
  | .I32 => false

/-- Modelled from the spec: `SampleFormat::from_flags_and_bits_per_sample`,
the validation that "the format tag round-trips to a supported sample element
type" (spec section 6): the float/signed-integer bits select the class and the
bit width selects the element type; unsupported combinations are rejected. -/
def SampleFormat.from_flags_and_bits_per_sample
    (flags : LinearPcmFlags) (bits : Nat) : Option SampleFormat :=
  if flags.isFloat then
    if bits = 32 then some .F32
    else if bits = 64 then some .F64
    else none
  else if flags.isSignedInteger then
    if bits = 16 then some .I16
    else if bits = 32 then some .I32
    else none
  else none

/-- The `kAudioFormatLinearPCM` format tag (fourcc `lpcm`). -/
def kAudioFormatLinearPCM : Nat := 1819304813

/-- Embeds `sys::AudioStreamBasicDescription` as filled in by
`StreamFormat::new`.  `mSampleRate` is an `f64` that the code under `src/`
only stores and reads back, modelled as an exact rational; `mFormatFlags` is
the `u32` flag bit set, modelled through `LinearPcmFlags` (the bits-to-set
round-trip is exact). -/
structure AudioStreamBasicDescription where
  mSampleRate : Rat
  mFormatID : Nat
  mFormatFlags : LinearPcmFlags
  mBytesPerPacket : Nat
  mFramesPerPacket : Nat
  mBytesPerFrame : Nat
  mChannelsPerFrame : Nat
  mBitsPerChannel : Nat
  mReserved : Nat
deriving DecidableEq

/-- Embeds the `StreamFormat` wrapper of `stream_format.rs`. -/
structure StreamFormat where
  asbd : AudioStreamBasicDescription
deriving DecidableEq

/-- Embeds `StreamFormat::new(sample_rate, sample_format, flags, channels)`
(`stream_format.rs`): ors `IS_PACKED` into the flags, truncates `channels` to
`u32`, derives the per-frame/per-packet byte counts (u32 arithmetic) and the
bits per channel, and stores everything in the description. -/
def StreamFormat.new (sample_rate : Rat) (sample_format : SampleFormat)
    (flags : LinearPcmFlags) (channels : Nat) : StreamFormat :=
  let format_flags := flags.withPacked
  let non_interleaved := flags.isNonInterleaved
  let channels32 := toU32 channels
  let bytes_per_frame :=
    if non_interleaved then sample_format.size_in_bytes
    else toU32 (sample_format.size_in_bytes * channels32)
  let bytes_per_packet := bytes_per_frame * 1
  { asbd :=
      { mSampleRate := sample_rate
        mFormatID := kAudioFormatLinearPCM
        mFormatFlags := format_flags
        mBytesPerPacket := bytes_per_packet
        mFramesPerPacket := 1
        mBytesPerFrame := bytes_per_frame
        mChannelsPerFrame := channels32
        mBitsPerChannel := sample_format.size_in_bits
        mReserved := 0 } }

/-- Embeds `StreamFormat::sample_rate` (`stream_format.rs`). -/
def StreamFormat.sample_rate (f : StreamFormat) : Rat :=
  f.asbd.mSampleRate

/-- Embeds `StreamFormat::channels` (`stream_format.rs`):
`mChannelsPerFrame as usize`. -/
def StreamFormat.channels (f : StreamFormat) : Nat :=
  f.asbd.mChannelsPerFrame

/-- Embeds `StreamFormat::flags` (`stream_format.rs`): re-derives the linear
PCM flag set from the stored description; panics (modelled `none`) if the
description is not linear PCM. -/
def StreamFormat.flags (f : StreamFormat) : Option LinearPcmFlags :=
  if f.asbd.mFormatID = kAudioFormatLinearPCM then some f.asbd.mFormatFlags else none

/-- Embeds `StreamFormat::sample_format` (`stream_format.rs`): re-derives the
sample element type from the flags and `mBitsPerChannel`; panics (modelled
`none`) on an unsupported combination. -/
def StreamFormat.sample_format (f : StreamFormat) : Option SampleFormat :=
  (f.flags).bind fun fl =>
    SampleFormat.from_flags_and_bits_per_sample fl f.asbd.mBitsPerChannel

/-! ## The audio-unit lifecycle (`src/unit/mod.rs`)

`AudioUnit` keeps two booleans, `initialized` and `started`; the lifecycle
operations guard on them, make at most one host call each (plus the nested
`initialize`/`stop` calls of `start`/`uninitialize`), and update them only when
the host call succeeds.  Host behaviour is a parameter: `HostEnv` fixes the
status each host function returns.  Each operation returns the `Result`, the
new flag state, and the list of host calls it performed (so that "attempted
before", "performs host-side start once" and "disposes exactly once" are
expressible). -/

/-- The two lifecycle flags of `AudioUnit` (`unit/mod.rs`). -/
structure UnitState where
  initialized : Bool
  started : Bool
deriving DecidableEq

/-- The statuses the host returns for each of the four lifecycle host calls. -/
structure HostEnv where
  initStatus : Int
  uninitStatus : Int
  startStatus : Int
  stopStatus : Int
deriving DecidableEq

/-- The host functions the lifecycle code can call. -/
inductive HostCall where
  | audioUnitInit
  | audioUnitUninit
  | outputUnitStart
  | outputUnitStop
  | instanceDispose
deriving DecidableEq

/-- Embeds `AudioUnit::initialize` (`unit/mod.rs`): no-op when already
initialized; otherwise one `AudioUnitInitialize` host call, setting the flag
only on success. -/
def UnitState.initializeFn (env : HostEnv) (u : UnitState) :
    Except CAError Unit × UnitState × List HostCall :=
  if u.initialized then (.ok (), u, [])
  else
    match CAError.from_os_status env.initStatus with
    | .error e => (.error e, u, [.audioUnitInit])
    | .ok _ => (.ok (), { u with initialized := true }, [.audioUnitInit])

/-- Embeds `AudioUnit::stop` (`unit/mod.rs`): no-op when not started;
otherwise one `AudioOutputUnitStop` host call, clearing the flag only on
success. -/
def UnitState.stopFn (env : HostEnv) (u : UnitState) :
    Except CAError Unit × UnitState × List HostCall :=
  if u.started then
    match CAError.from_os_status env.stopStatus with
    | .error e => (.error e, u, [.outputUnitStop])
    | .ok _ => (.ok (), { u with started := false }, [.outputUnitStop])
  else (.ok (), u, [])

/-- Embeds `AudioUnit::start` (`unit/mod.rs`): no-op when already started;
otherwise initializes first when needed (propagating its failure), then one
`AudioOutputUnitStart` host call, setting the flag only on success. -/
def UnitState.startFn (env : HostEnv) (u : UnitState) :
    Except CAError Unit × UnitState × List HostCall :=
  if u.started then (.ok (), u, [])
  else
    match (if u.initialized then (.ok (), u, []) else u.initializeFn env) with
    | (.error e, u₁, t₁) => (.error e, u₁, t₁)
    | (.ok _, u₁, t₁) =>
      match CAError.from_os_status env.startStatus with
      | .error e => (.error e, u₁, t₁ ++ [.outputUnitStart])
      | .ok _ => (.ok (), { u₁ with started := true }, t₁ ++ [.outputUnitStart])

/-- Embeds `AudioUnit::uninitialize` (`unit/mod.rs`): no-op when not
initialized; otherwise stops first when started (propagating its failure),
then one `AudioUnitUninitialize` host call, clearing the flag only on
success. -/
def UnitState.uninitializeFn (env : HostEnv) (u : UnitState) :
    Except CAError Unit × UnitState × List HostCall :=
  if u.initialized then
    match (if u.started then u.stopFn env else (.ok (), u, [])) with
    | (.error e, u₁, t₁) => (.error e, u₁, t₁)
    | (.ok _, u₁, t₁) =>
      match CAError.from_os_status env.uninitStatus with
      | .error e => (.error e, u₁, t₁ ++ [.audioUnitUninit])
      | .ok _ => (.ok (), { u₁ with initialized := false }, t₁ ++ [.audioUnitUninit])
  else (.ok (), u, [])

/-- Embeds `Drop for AudioUnit` (`unit/mod.rs`): best-effort stop, best-effort
uninitialize (both errors swallowed through `.ok()`), then the unconditional
`AudioComponentInstanceDispose` host call. -/
def UnitState.dropFn (env : HostEnv) (u : UnitState) : UnitState × List HostCall :=
  let r₁ := u.stopFn env
  let r₂ := r₁.2.1.uninitializeFn env
  (r₂.2.1, r₁.2.2 ++ r₂.2.2 ++ [.instanceDispose])

/-! ## Claims about buffer lists and resize -/

/-- C3 (counterexample): the claim says `new(0, c, f)` yields an empty list
without failing, but the source asserts `buffers >= 1`, so construction with
`buffer_count == 0` panics (modelled `none`) at the concrete input
`new(0, 2, 512)` with a 4-byte sample type. -/
theorem bufferList_zero_cex : AudioBufferList.new 0 2 512 4 = none := rfl

/-- C3 (amended): for every `c`, `f` and sample size, constructing an owned
list with `buffer_count == 0` fails the `assert!(buffers >= 1)` guard
(modelled `none`); the zero-buffer degenerate case is rejected, not handled. -/
theorem bufferList_zero_buffers (c f sz : Nat) : AudioBufferList.new 0 c f sz = none := by
  simp [AudioBufferList.new]

/-- C2 (amended): for `buffer_count, channels, frames ≥ 1`, a sample size
`≥ 1`, and values small enough that the `u32` header fields do not truncate
(`buffer_count < 2^32` and `channels * frames * size_of::<S>() < 2^32`), the
owned list construction succeeds, `len()` equals `buffer_count`, every entry
reports the given `channels` and `frames`, and the summed sample capacity is
`buffer_count * channels * frames`. -/
theorem bufferList_layout (b c f sz : Nat) (hb : 1 ≤ b) (hc : 1 ≤ c) (hf : 1 ≤ f)
    (hsz : 1 ≤ sz) (hb32 : b < 2 ^ 32) (hbytes : c * f * sz < 2 ^ 32) :
    ∃ l, AudioBufferList.new b c f sz = some l ∧
      l.len = b ∧
      (∀ e ∈ l.buffers, e.channels = c ∧ e.frames sz = some f) ∧
      (l.buffers.map fun e => e.data_byte_size / sz).sum = b * c * f := by
  have hcb : c ≤ c * f * sz :=
    le_trans (Nat.le_mul_of_pos_right c (by omega)) (Nat.le_mul_of_pos_right _ (by omega))
  have hmodb : toU32 b = b := Nat.mod_eq_of_lt hb32
  have hmodc : toU32 c = c := Nat.mod_eq_of_lt (lt_of_le_of_lt hcb hbytes)
  have hmodbytes : toU32 (c * f * sz) = c * f * sz := Nat.mod_eq_of_lt hbytes
  have hdiv : c * f * sz / sz = c * f := Nat.mul_div_cancel (c * f) (by omega)
  have hframes : c * f / c = f := Nat.mul_div_cancel_left f (by omega)
  have hbufc : (AudioBufferList.mk (toU32 b)
      ((List.range b).map fun k =>
        ({ channels := toU32 c, data_byte_size := toU32 (c * f * sz),
           dataOff := k * (c * f) } : AudioBuffer)) (b * (c * f))).buffers =
      (List.range b).map fun k =>
        ({ channels := toU32 c, data_byte_size := toU32 (c * f * sz),
           dataOff := k * (c * f) } : AudioBuffer) := by
    simp only [AudioBufferList.buffers, hmodb]
    exact List.take_of_length_le (by simp)
  refine ⟨_, by rw [AudioBufferList.new, if_pos hb], ?_, ?_, ?_⟩
  · simp only [AudioBufferList.len, hbufc]
    simp
  · intro e he
    rw [hbufc] at he
    obtain ⟨k, -, rfl⟩ := List.mem_map.1 he
    refine ⟨hmodc, ?_⟩
    simp only [AudioBuffer.frames, AudioBuffer.sampleLen, hmodc, hmodbytes, hdiv, hframes]
    rw [if_neg (by omega)]
  · rw [hbufc, List.map_map]
    have hcomp : ((fun e => e.data_byte_size / sz) ∘ fun k =>
        ({ channels := toU32 c, data_byte_size := toU32 (c * f * sz),
           dataOff := k * (c * f) } : AudioBuffer)) = fun _ => c * f := by
      funext k
      simp [Function.comp, hmodbytes, hdiv]
    rw [hcomp, List.map_const', List.sum_replicate]
    simp [Nat.mul_assoc]

/-- C2 (witness): the amended layout theorem instantiated at
`new(2, 3, 5)` with a 4-byte sample type. -/
theorem bufferList_layout_witness :
    (1 ≤ 2 ∧ 1 ≤ 3 ∧ 1 ≤ 5 ∧ 1 ≤ 4 ∧ 2 < 2 ^ 32 ∧ 3 * 5 * 4 < 2 ^ 32) ∧
    ∃ l, AudioBufferList.new 2 3 5 4 = some l ∧
      l.len = 2 ∧
      (∀ e ∈ l.buffers, e.channels = 3 ∧ e.frames 4 = some 5) ∧
      (l.buffers.map fun e => e.data_byte_size / 4).sum = 2 * 3 * 5 :=
  ⟨by decide,
   bufferList_layout 2 3 5 4 (by decide) (by decide) (by decide) (by decide)
     (by decide) (by decide)⟩

/-- C2 (counterexample): the claim as stated fails once a `u32` field
truncates: `new(2^32, 1, 1)` with 1-byte samples reports `len() == 0`, not
`2^32`, and `new(1, 1, 2^32)` with 4-byte samples stores a truncated byte size
so its single entry reports `frames() == 0`, not `2^32`. -/
theorem bufferList_layout_cex :
    (AudioBufferList.new (2 ^ 32) 1 1 1).map AudioBufferList.len = some 0 ∧
    (2 ^ 32 : Nat) ≠ 0 ∧
    (AudioBufferList.new 1 1 (2 ^ 32) 4).map (fun l => l.buffers.map fun e => e.frames 4) =
      some [some 0] ∧
    some (2 ^ 32 : Nat) ≠ some 0 :=
  ⟨rfl, by decide, rfl, by decide⟩

/-- C8 (theorem): `resize(len)` on a queue buffer of byte capacity below
`2^32` (it is a `u32` field) with sample size `≥ 1` sets the current length to
`min(max(len, 0), capacity_in_samples)`, leaves the capacity untouched (no
reallocation, no error path: `resize` is total), and is idempotent for the
same input. -/
theorem queueBuffer_resize_clamps (b : AudioQueueBuffer) (sz len : Nat) (hsz : 1 ≤ sz)
    (hcap : b.mAudioDataBytesCapacity < 2 ^ 32) :
    (b.resize sz len).currentLen sz =
      min (max len 0) (b.mAudioDataBytesCapacity / sz) ∧
    (b.resize sz len).mAudioDataBytesCapacity = b.mAudioDataBytesCapacity ∧
    (b.resize sz len).resize sz len = b.resize sz len := by
  have hle : min (max len 0) (b.mAudioDataBytesCapacity / sz) * sz ≤
      b.mAudioDataBytesCapacity :=
    le_trans (Nat.mul_le_mul_right sz (min_le_right _ _)) (Nat.div_mul_le_self _ _)
  have hmod : toU32 (min (max len 0) (b.mAudioDataBytesCapacity / sz) * sz) =
      min (max len 0) (b.mAudioDataBytesCapacity / sz) * sz :=
    Nat.mod_eq_of_lt (lt_of_le_of_lt hle hcap)
  refine ⟨?_, rfl, ?_⟩
  · simp only [AudioQueueBuffer.resize, AudioQueueBuffer.currentLen, hmod]
    exact Nat.mul_div_cancel _ (by omega)
  · simp [AudioQueueBuffer.resize]

/-- C8 (witness): the clamping theorem instantiated at a buffer of 16-byte
capacity, 4-byte samples and a request of 7 samples (clamped to 4). -/
theorem queueBuffer_resize_clamps_witness :
    (1 ≤ 4 ∧ (16 : Nat) < 2 ^ 32) ∧
    ((AudioQueueBuffer.mk 16 0).resize 4 7).currentLen 4 = min (max 7 0) (16 / 4) ∧
    ((AudioQueueBuffer.mk 16 0).resize 4 7).mAudioDataBytesCapacity = 16 ∧
    (((AudioQueueBuffer.mk 16 0).resize 4 7).resize 4 7) =
      (AudioQueueBuffer.mk 16 0).resize 4 7 :=
  ⟨by decide, queueBuffer_resize_clamps (AudioQueueBuffer.mk 16 0) 4 7 (by decide) (by decide)⟩

/-! ## Claims about stream formats -/

/-- C9 (amended): for every rate, sample format, flag set and channel count,
provided `channels < 2^32` (it is stored in a `u32` field) and the flag set is
a supported combination for the sample format (`IS_FLOAT` present exactly for
the float formats, `IS_SIGNED_INTEGER` present exactly for the integer
formats), the constructed `StreamFormat` reads back the same sample rate,
channel count and sample element type, and its flags re-derive to the
equivalent set `flags | IS_PACKED`. -/
theorem streamFormat_roundtrip (rate : Rat) (fmt : SampleFormat) (flags : LinearPcmFlags)
    (channels : Nat) (hch : channels < 2 ^ 32)
    (hfl : flags.isFloat = fmt.isFloat) (hsi : flags.isSignedInteger = !fmt.isFloat) :
    (StreamFormat.new rate fmt flags channels).sample_rate = rate ∧
    (StreamFormat.new rate fmt flags channels).channels = channels ∧
    (StreamFormat.new rate fmt flags channels).flags = some flags.withPacked ∧
    (StreamFormat.new rate fmt flags channels).sample_format = some fmt := by
  have hlpcm : (StreamFormat.new rate fmt flags channels).flags = some flags.withPacked := by
    simp [StreamFormat.flags, StreamFormat.new]
  refine ⟨rfl, ?_, hlpcm, ?_⟩
  · simpa [StreamFormat.channels, StreamFormat.new, toU32] using Nat.mod_eq_of_lt hch
  · rw [StreamFormat.sample_format, hlpcm]
    cases fmt <;>
      simp_all [SampleFormat.from_flags_and_bits_per_sample, LinearPcmFlags.withPacked,
        SampleFormat.size_in_bits, SampleFormat.isFloat, StreamFormat.new]

/-- C9 (witness): the round-trip theorem instantiated at 48000 Hz, `F32`,
`IS_FLOAT`, 2 channels. -/
theorem streamFormat_roundtrip_witness :
    ((2 : Nat) < 2 ^ 32 ∧
      (LinearPcmFlags.mk true false false false).isFloat = SampleFormat.F32.isFloat ∧
      (LinearPcmFlags.mk true false false false).isSignedInteger =
        !SampleFormat.F32.isFloat) ∧
    (StreamFormat.new 48000 .F32 (LinearPcmFlags.mk true false false false) 2).sample_rate =
      48000 ∧
    (StreamFormat.new 48000 .F32 (LinearPcmFlags.mk true false false false) 2).channels = 2 ∧
    (StreamFormat.new 48000 .F32 (LinearPcmFlags.mk true false false false) 2).flags =
      some (LinearPcmFlags.mk true false false false).withPacked ∧
    (StreamFormat.new 48000 .F32 (LinearPcmFlags.mk true false false false) 2).sample_format =
      some .F32 :=
  ⟨⟨by decide, by decide, by decide⟩,
   streamFormat_roundtrip 48000 .F32 (LinearPcmFlags.mk true false false false) 2
     (by decide) (by decide) (by decide)⟩

/-- C9 (counterexample): the claim as stated fails at the concrete input
`new(44100.0, F32, no flags, 2^32)`: the `u32` channel field truncates so
`channels()` reads back `0`, and the empty flag set does not re-derive the
`F32` element type (`sample_format()` panics, modelled `none`). -/
theorem streamFormat_roundtrip_cex :
    (StreamFormat.new 44100 .F32 (LinearPcmFlags.mk false false false false)
      (2 ^ 32)).channels = 0 ∧
    (2 ^ 32 : Nat) ≠ 0 ∧
    (StreamFormat.new 44100 .F32 (LinearPcmFlags.mk false false false false)
      (2 ^ 32)).sample_format = none := by
  refine ⟨?_, by decide, ?_⟩
  · simp [StreamFormat.channels, StreamFormat.new, toU32]
  · simp [StreamFormat.sample_format, StreamFormat.flags, StreamFormat.new,
      SampleFormat.from_flags_and_bits_per_sample, LinearPcmFlags.withPacked]

/-! ## Claims about OS-status conversion -/

theorem AudioError.codesAudio {s : Int} {e : AudioError}
    (h : AudioError.from_os_status s = some e) :
    s = -4 ∨ s = -43 ∨ s = -54 ∨ s = -42 ∨ s = 561017960 ∨ s = -50 ∨ s = -108 := by
  unfold AudioError.from_os_status at h
  split_ifs at h <;> omega

theorem AudioCodecError.codesCodec {s : Int} {e : AudioCodecError}
    (h : AudioCodecError.from_os_status s = some e) :
    s = 2003329396 ∨ s = 2003332927 ∨ s = 561211770 ∨ s = 1852797029 ∨
      s = 560226676 ∨ s = 561214580 ∨ s = 560100710 := by
  unfold AudioCodecError.from_os_status at h
  split_ifs at h <;> omega

theorem AudioFormatError.codesFormat {s : Int} {e : AudioFormatError}
    (h : AudioFormatError.from_os_status s = some e) : s = 1718449215 := by
  unfold AudioFormatError.from_os_status at h
  split_ifs at h <;> omega

theorem AudioUnitError.codesUnit {s : Int} {e : AudioUnitError}
    (h : AudioUnitError.from_os_status s = some e) :
    s = -10879 ∨ s = -10878 ∨ s = -10877 ∨ s = -10876 ∨ s = -10875 ∨ s = -10874 ∨
      s = -10871 ∨ s = -10868 ∨ s = -10867 ∨ s = -10866 ∨ s = -10865 ∨ s = -10863 ∨
      s = -10851 ∨ s = -10850 ∨ s = -10849 ∨ s = -10848 ∨ s = -10847 := by
  unfold AudioUnitError.from_os_status at h
  by_cases h0 : s = -10879
  · omega
  rw [if_neg h0] at h
  by_cases h1 : s = -10878
  · omega
  rw [if_neg h1] at h
  by_cases h2 : s = -10877
  · omega
  rw [if_neg h2] at h
  by_cases h3 : s = -10876
  · omega
  rw [if_neg h3] at h
  by_cases h4 : s = -10875
  · omega
  rw [if_neg h4] at h
  by_cases h5 : s = -10874
  · omega
  rw [if_neg h5] at h
  by_cases h6 : s = -10871
  · omega
  rw [if_neg h6] at h
  by_cases h7 : s = -10868
  · omega
  rw [if_neg h7] at h
  by_cases h8 : s = -10867
  · omega
  rw [if_neg h8] at h
  by_cases h9 : s = -10866
  · omega
  rw [if_neg h9] at h
  by_cases h10 : s = -10865
  · omega
  rw [if_neg h10] at h
  by_cases h11 : s = -10863
  · omega
  rw [if_neg h11] at h
  by_cases h12 : s = -10851
  · omega
  rw [if_neg h12] at h
  by_cases h13 : s = -10850
  · omega
  rw [if_neg h13] at h
  by_cases h14 : s = -10849
  · omega
  rw [if_neg h14] at h
  by_cases h15 : s = -10848
  · omega
  rw [if_neg h15] at h
  by_cases h16 : s = -10847
  · omega
  rw [if_neg h16] at h
  simp at h

theorem caErrorOfStatus_audioTab {s : Int} {e : AudioError}
    (h : AudioError.from_os_status s = some e) : caErrorOfStatus s = .audioError e := by
  simp [caErrorOfStatus, h]

theorem caErrorOfStatus_codecTab {s : Int} {e : AudioCodecError}
    (h : AudioCodecError.from_os_status s = some e) :
    caErrorOfStatus s = .audioCodecError e := by
  have ha : AudioError.from_os_status s = none := by
    rcases AudioCodecError.codesCodec h with rfl | rfl | rfl | rfl | rfl | rfl | rfl <;>
      simp [AudioError.from_os_status]
  simp [caErrorOfStatus, ha, h]

theorem caErrorOfStatus_formatTab {s : Int} {e : AudioFormatError}
    (h : AudioFormatError.from_os_status s = some e) :
    caErrorOfStatus s = .audioFormatError e := by
  obtain rfl := AudioFormatError.codesFormat h
  simp_all [caErrorOfStatus, AudioError.from_os_status, AudioCodecError.from_os_status]

theorem caErrorOfStatus_unitTab {s : Int} {e : AudioUnitError}
    (h : AudioUnitError.from_os_status s = some e) :
    caErrorOfStatus s = .audioUnitError e := by
  have hnone : AudioError.from_os_status s = none ∧
      AudioCodecError.from_os_status s = none ∧
      AudioFormatError.from_os_status s = none := by
    rcases AudioUnitError.codesUnit h with
      rfl | rfl | rfl | rfl | rfl | rfl | rfl | rfl | rfl | rfl | rfl | rfl | rfl | rfl |
      rfl | rfl | rfl <;>
      exact ⟨by simp [AudioError.from_os_status], by simp [AudioCodecError.from_os_status],
        by simp [AudioFormatError.from_os_status]⟩
  simp [caErrorOfStatus, hnone.1, hnone.2.1, hnone.2.2, h]

theorem caError_from_nonzero {s : Int} (hs : s ≠ 0) :
    CAError.from_os_status s = .error (caErrorOfStatus s) := by
  simp [CAError.from_os_status, hs]

/-- C10 (theorem): the status conversion used at every host call site treats
exactly the zero status as success; a nonzero status found in one of the four
per-domain tables of `error.rs` becomes the matching typed variant, and a
nonzero status in no table still becomes the typed catch-all `Other` error
rather than being swallowed. -/
theorem try_os_status_conversion (s : Int) :
    (CAError.from_os_status s = .ok () ↔ s = 0) ∧
    (∀ e, AudioError.from_os_status s = some e →
      CAError.from_os_status s = .error (.audioError e)) ∧
    (∀ e, AudioCodecError.from_os_status s = some e →
      CAError.from_os_status s = .error (.audioCodecError e)) ∧
    (∀ e, AudioFormatError.from_os_status s = some e →
      CAError.from_os_status s = .error (.audioFormatError e)) ∧
    (∀ e, AudioUnitError.from_os_status s = some e →
      CAError.from_os_status s = .error (.audioUnitError e)) ∧
    (s ≠ 0 → AudioError.from_os_status s = none → AudioCodecError.from_os_status s = none →
      AudioFormatError.from_os_status s = none → AudioUnitError.from_os_status s = none →
      CAError.from_os_status s = .error (.other "unknown OS status")) := by
  refine ⟨?_, ?_, ?_, ?_, ?_, ?_⟩
  · constructor
    · intro h
      by_contra hs
      rw [caError_from_nonzero hs] at h
      exact Except.noConfusion h
    · intro h
      subst h
      simp [CAError.from_os_status]
  · intro e he
    have hs : s ≠ 0 := by have := AudioError.codesAudio he; omega
    rw [caError_from_nonzero hs, caErrorOfStatus_audioTab he]
  · intro e he
    have hs : s ≠ 0 := by have := AudioCodecError.codesCodec he; omega
    rw [caError_from_nonzero hs, caErrorOfStatus_codecTab he]
  · intro e he
    have hs : s ≠ 0 := by have := AudioFormatError.codesFormat he; omega
    rw [caError_from_nonzero hs, caErrorOfStatus_formatTab he]
  · intro e he
    have hs : s ≠ 0 := by have := AudioUnitError.codesUnit he; omega
    rw [caError_from_nonzero hs, caErrorOfStatus_unitTab he]
  · intro hs ha hc hf hu
    rw [caError_from_nonzero hs]
    simp [caErrorOfStatus, ha, hc, hf, hu]

/-- C10 (witness): the conversion theorem applied at status `0`, one status
from each of the four tables, and the unrecognized status `12345`. -/
theorem try_os_status_conversion_witness :
    CAError.from_os_status 0 = .ok () ∧
    CAError.from_os_status (-50) = .error (.audioError .param) ∧
    CAError.from_os_status 2003329396 = .error (.audioCodecError .unspecified) ∧
    CAError.from_os_status 1718449215 = .error (.audioFormatError .unsupportedDataFormat) ∧
    CAError.from_os_status (-10875) = .error (.audioUnitError .failedInitialization) ∧
    CAError.from_os_status 12345 = .error (.other "unknown OS status") :=
  ⟨(try_os_status_conversion 0).1.mpr rfl,
   (try_os_status_conversion (-50)).2.1 _ (by simp [AudioError.from_os_status]),
   (try_os_status_conversion 2003329396).2.2.1 _ (by simp [AudioCodecError.from_os_status]),
   (try_os_status_conversion 1718449215).2.2.2.1 _ (by simp [AudioFormatError.from_os_status]),
   (try_os_status_conversion (-10875)).2.2.2.2.1 _ (by simp [AudioUnitError.from_os_status]),
   (try_os_status_conversion 12345).2.2.2.2.2 (by simp)
     (by simp [AudioError.from_os_status]) (by simp [AudioCodecError.from_os_status])
     (by simp [AudioFormatError.from_os_status]) (by simp [AudioUnitError.from_os_status])⟩

/-! ## Claims about the audio-unit lifecycle -/

/-- C6 (theorem): for any host behaviour, every lifecycle operation preserves
`started ⇒ initialized`; `initialize` when initialized, `start` when started,
`stop` when not started and `uninitialize` when not initialized are exact
no-ops returning success and making no host call; `start` performs the
initialize host call before the host start when not yet initialized;
`uninitialize` performs the stop host call before the host uninitialize when
started; and `drop` makes the dispose host call exactly once, whatever the
state and whatever statuses stop/uninitialize return. -/
theorem unit_lifecycle_invariants (env : HostEnv) (u : UnitState)
    (hinv : u.started = true → u.initialized = true) :
    ((u.initializeFn env).2.1.started = true → (u.initializeFn env).2.1.initialized = true) ∧
    ((u.uninitializeFn env).2.1.started = true →
      (u.uninitializeFn env).2.1.initialized = true) ∧
    ((u.startFn env).2.1.started = true → (u.startFn env).2.1.initialized = true) ∧
    ((u.stopFn env).2.1.started = true → (u.stopFn env).2.1.initialized = true) ∧
    (u.initialized = true → u.initializeFn env = (.ok (), u, [])) ∧
    (u.started = true → u.startFn env = (.ok (), u, [])) ∧
    (u.started = false → u.stopFn env = (.ok (), u, [])) ∧
    (u.initialized = false → u.uninitializeFn env = (.ok (), u, [])) ∧
    (u.initialized = false → u.started = false → env.initStatus = 0 → env.startStatus = 0 →
      u.startFn env = (.ok (), UnitState.mk true true, [.audioUnitInit, .outputUnitStart])) ∧
    (u.initialized = true → u.started = true → env.stopStatus = 0 → env.uninitStatus = 0 →
      u.uninitializeFn env =
        (.ok (), UnitState.mk false false, [.outputUnitStop, .audioUnitUninit])) ∧
    ((u.dropFn env).2.count .instanceDispose = 1) := by
  obtain ⟨i, st⟩ := u
  cases hi : CAError.from_os_status env.initStatus <;>
    cases hs : CAError.from_os_status env.startStatus <;>
    cases ht : CAError.from_os_status env.stopStatus <;>
    cases hu : CAError.from_os_status env.uninitStatus <;>
    cases i <;> cases st <;>
    simp_all [UnitState.initializeFn, UnitState.uninitializeFn, UnitState.startFn,
      UnitState.stopFn, UnitState.dropFn, CAError.from_os_status]

/-- C6 (witness): the lifecycle theorem applied to a fresh unit (neither
initialized nor started) and a host that succeeds on every call. -/
theorem unit_lifecycle_invariants_witness :
    ((UnitState.mk false false).started = true →
      (UnitState.mk false false).initialized = true) ∧
    (((UnitState.mk false false).initializeFn (HostEnv.mk 0 0 0 0)).2.1.started = true →
      ((UnitState.mk false false).initializeFn (HostEnv.mk 0 0 0 0)).2.1.initialized = true) ∧
    (((UnitState.mk false false).uninitializeFn (HostEnv.mk 0 0 0 0)).2.1.started = true →
      ((UnitState.mk false false).uninitializeFn (HostEnv.mk 0 0 0 0)).2.1.initialized =
        true) ∧
    (((UnitState.mk false false).startFn (HostEnv.mk 0 0 0 0)).2.1.started = true →
      ((UnitState.mk false false).startFn (HostEnv.mk 0 0 0 0)).2.1.initialized = true) ∧
    (((UnitState.mk false false).stopFn (HostEnv.mk 0 0 0 0)).2.1.started = true →
      ((UnitState.mk false false).stopFn (HostEnv.mk 0 0 0 0)).2.1.initialized = true) ∧
    ((UnitState.mk false false).initialized = true →
      (UnitState.mk false false).initializeFn (HostEnv.mk 0 0 0 0) =
        (.ok (), UnitState.mk false false, [])) ∧
    ((UnitState.mk false false).started = true →
      (UnitState.mk false false).startFn (HostEnv.mk 0 0 0 0) =
        (.ok (), UnitState.mk false false, [])) ∧
    ((UnitState.mk false false).started = false →
      (UnitState.mk false false).stopFn (HostEnv.mk 0 0 0 0) =
        (.ok (), UnitState.mk false false, [])) ∧
    ((UnitState.mk false false).initialized = false →
      (UnitState.mk false false).uninitializeFn (HostEnv.mk 0 0 0 0) =
        (.ok (), UnitState.mk false false, [])) ∧
    ((UnitState.mk false false).initialized = false →
      (UnitState.mk false false).started = false →
      (HostEnv.mk 0 0 0 0).initStatus = 0 → (HostEnv.mk 0 0 0 0).startStatus = 0 →
      (UnitState.mk false false).startFn (HostEnv.mk 0 0 0 0) =
        (.ok (), UnitState.mk true true, [.audioUnitInit, .outputUnitStart])) ∧
    ((UnitState.mk false false).initialized = true →
      (UnitState.mk false false).started = true →
      (HostEnv.mk 0 0 0 0).stopStatus = 0 → (HostEnv.mk 0 0 0 0).uninitStatus = 0 →
      (UnitState.mk false false).uninitializeFn (HostEnv.mk 0 0 0 0) =
        (.ok (), UnitState.mk false false, [.outputUnitStop, .audioUnitUninit])) ∧
    (((UnitState.mk false false).dropFn (HostEnv.mk 0 0 0 0)).2.count .instanceDispose = 1) :=
  ⟨by decide,
   unit_lifecycle_invariants (HostEnv.mk 0 0 0 0) (UnitState.mk false false) (by decide)⟩

/-- C7 (counterexample): the claim as stated fails on `start` called on a
fresh unit when the implicit initialize succeeds but the host start fails
(status `-10875`): the operation returns the typed error, yet the
`initialized` flag has changed from `false` to `true`, so the flags are not
all unchanged from their values before the operation. -/
theorem unit_start_failure_cex :
    (UnitState.startFn (HostEnv.mk 0 0 (-10875) 0) (UnitState.mk false false)).1 =
      .error (.audioUnitError .failedInitialization) ∧
    (UnitState.startFn (HostEnv.mk 0 0 (-10875) 0)
      (UnitState.mk false false)).2.1.initialized = true ∧
    (UnitState.mk false false).initialized = false :=
  ⟨rfl, rfl, rfl⟩

/-- C7 (amended): when a host call inside `initialize`, `start` or `stop`
returns a nonzero status, the operation returns the typed error for that
status and the flags keep the values they had immediately before the failing
host call: `initialize` and `stop` failures leave both flags unchanged from
before the operation; a `start` whose host start call fails leaves `started`
unchanged, but leaves `initialized = true` when `start` first performed the
implicit initialize successfully. -/
theorem unit_failure_leaves_flags (env : HostEnv) (u : UnitState) :
    (u.initialized = false → env.initStatus ≠ 0 →
      u.initializeFn env = (.error (caErrorOfStatus env.initStatus), u, [.audioUnitInit])) ∧
    (u.started = true → env.stopStatus ≠ 0 →
      u.stopFn env = (.error (caErrorOfStatus env.stopStatus), u, [.outputUnitStop])) ∧
    (u.started = false → u.initialized = true → env.startStatus ≠ 0 →
      u.startFn env = (.error (caErrorOfStatus env.startStatus), u, [.outputUnitStart])) ∧
    (u.started = false → u.initialized = false → env.initStatus ≠ 0 →
      u.startFn env = (.error (caErrorOfStatus env.initStatus), u, [.audioUnitInit])) ∧
    (u.started = false → u.initialized = false → env.initStatus = 0 → env.startStatus ≠ 0 →
      u.startFn env = (.error (caErrorOfStatus env.startStatus), UnitState.mk true false,
        [.audioUnitInit, .outputUnitStart])) := by
  obtain ⟨i, st⟩ := u
  cases i <;> cases st <;>
    simp_all [UnitState.initializeFn, UnitState.startFn, UnitState.stopFn,
      CAError.from_os_status]

/-- C7 (witness): the amended theorem applied at concrete failing statuses for
each of the five failure shapes. -/
theorem unit_failure_leaves_flags_witness :
    UnitState.initializeFn (HostEnv.mk (-4) 0 0 0) (UnitState.mk false false) =
      (.error (caErrorOfStatus (-4)), UnitState.mk false false, [.audioUnitInit]) ∧
    UnitState.stopFn (HostEnv.mk 0 0 0 (-50)) (UnitState.mk true true) =
      (.error (caErrorOfStatus (-50)), UnitState.mk true true, [.outputUnitStop]) ∧
    UnitState.startFn (HostEnv.mk 0 0 (-10867) 0) (UnitState.mk true false) =
      (.error (caErrorOfStatus (-10867)), UnitState.mk true false, [.outputUnitStart]) ∧
    UnitState.startFn (HostEnv.mk (-108) 0 0 0) (UnitState.mk false false) =
      (.error (caErrorOfStatus (-108)), UnitState.mk false false, [.audioUnitInit]) ∧
    UnitState.startFn (HostEnv.mk 0 0 (-10875) 0) (UnitState.mk false false) =
      (.error (caErrorOfStatus (-10875)), UnitState.mk true false,
        [.audioUnitInit, .outputUnitStart]) :=
  ⟨(unit_failure_leaves_flags (HostEnv.mk (-4) 0 0 0) (UnitState.mk false false)).1
      rfl (by decide),
   (unit_failure_leaves_flags (HostEnv.mk 0 0 0 (-50)) (UnitState.mk true true)).2.1
      rfl (by decide),
   (unit_failure_leaves_flags (HostEnv.mk 0 0 (-10867) 0) (UnitState.mk true false)).2.2.1
      rfl rfl (by decide),
   (unit_failure_leaves_flags (HostEnv.mk (-108) 0 0 0) (UnitState.mk false false)).2.2.2.1
      rfl rfl (by decide),
   (unit_failure_leaves_flags (HostEnv.mk 0 0 (-10875) 0)
      (UnitState.mk false false)).2.2.2.2 rfl rfl rfl (by decide)⟩

/-! ## Claims about the buffer pool -/

/-- A pool of one buffer whose only index has been received by
`request_buffer`: reachable in one transition. -/
theorem reach_held0 : PoolReachable 1 (PoolState.mk [] [0] [] []) := by
  have h1 : PoolStep (PoolState.start 1) (PoolState.mk [] [0] [] []) := by
    have h := PoolStep.request 0 [] [] [] []
    simpa [PoolState.start] using h
  exact PoolSteps.tail (PoolSteps.refl _) h1

/-- A pool of one buffer whose only index was lost by a failed enqueue:
reachable in two transitions. -/
theorem reach_lost0 : PoolReachable 1 (PoolState.mk [] [] [] [0]) := by
  have h2 : PoolStep (PoolState.mk [] [0] [] []) (PoolState.mk [] [] [] [0]) := by
    have h := PoolStep.enqueueFailed (PoolState.mk [] [0] [] []) 0 (by simp)
    simpa using h
  exact PoolSteps.tail reach_held0 h2

/-- C1 (amended): in every reachable pool state, every index below
`buffer_count` is in exactly one of the four locations: ready-queue,
handle-held, host-owned after a successful enqueue, or lost after a failed
enqueue (each counted once, so no index is duplicated); every other index is
nowhere; all `buffer_count` indices are enqueued as free at creation; and the
held indices are pairwise distinct, so two `request_buffer` acquisitions never
hold the same index concurrently. -/
theorem pool_index_partition (n : Nat) (s : PoolState) (h : PoolReachable n s) :
    (PoolState.start n).ready = List.range n ∧
    (∀ i, s.ready.count i + s.held.count i + s.hostOwned.count i + s.lost.count i =
      if i < n then 1 else 0) ∧
    s.held.Nodup := by
  refine ⟨rfl, fun i => by simpa [PoolState.countAll] using h.countAll_reachable i, ?_⟩
  refine List.nodup_iff_count_le_one.2 fun a => ?_
  have h2 := h.countAll_reachable a
  simp only [PoolState.countAll] at h2
  split at h2 <;> omega

/-- C1 (witness): the partition theorem at the reachable one-buffer pool
state whose index is held by a handle. -/
theorem pool_index_partition_witness :
    (PoolState.start 1).ready = List.range 1 ∧
    (∀ i, (PoolState.mk [] [0] [] []).ready.count i +
        (PoolState.mk [] [0] [] []).held.count i +
        (PoolState.mk [] [0] [] []).hostOwned.count i +
        (PoolState.mk [] [0] [] []).lost.count i = if i < 1 then 1 else 0) ∧
    (PoolState.mk [] [0] [] []).held.Nodup :=
  pool_index_partition 1 (PoolState.mk [] [0] [] []) reach_held0

/-- C1 (counterexample): the claim as stated (every index is at all times in
the ready-queue or the checked-out set, i.e. handle-held or host-owned after a
successful enqueue) fails in the reachable one-buffer pool state after
`request_buffer` followed by an enqueue whose host call fails: index `0` is
then in none of those places. -/
theorem pool_index_partition_cex :
    PoolReachable 1 (PoolState.mk [] [] [] [0]) ∧
    (0 : Nat) < 1 ∧
    0 ∉ (PoolState.mk [] [] [] [0]).ready ∧
    0 ∉ (PoolState.mk [] [] [] [0]).held ∧
    0 ∉ (PoolState.mk [] [] [] [0]).hostOwned :=
  ⟨reach_lost0, by decide, by simp, by simp, by simp⟩

/-- C4 (theorem): when `enqueue` is called on a held buffer and the host
enqueue fails, the transition exists (the drop handler sends nothing because
`was_enqueued` was set before the host call), the index does not go back to
the ready-queue, and after any further sequence of pool transitions the index
stays lost: it is never in the ready-queue nor held again, so no later
`request_buffer` can return it. -/
theorem pool_enqueue_failure_loses_index (n : Nat) (s s' : PoolState) (i : Nat)
    (hr : PoolReachable n s) (hh : i ∈ s.held)
    (hs : PoolSteps (PoolState.mk s.ready (s.held.erase i) s.hostOwned (i :: s.lost)) s') :
    PoolStep s (PoolState.mk s.ready (s.held.erase i) s.hostOwned (i :: s.lost)) ∧
    i ∉ s.ready ∧
    i ∈ s'.lost ∧ i ∉ s'.ready ∧ i ∉ s'.held := by
  have hstep := PoolStep.enqueueFailed s i hh
  have hr' : PoolReachable n s' := PoolSteps.trans (PoolSteps.tail hr hstep) hs
  have hlost : i ∈ s'.lost := PoolSteps.lost_mono_steps hs (by simp)
  have hcnt' := hr'.countAll_reachable i
  simp only [PoolState.countAll] at hcnt'
  have hclost : 0 < s'.lost.count i := List.count_pos_iff.2 hlost
  have hcnts := hr.countAll_reachable i
  simp only [PoolState.countAll] at hcnts
  have hcheld : 0 < s.held.count i := List.count_pos_iff.2 hh
  refine ⟨hstep, ?_, hlost, ?_, ?_⟩
  · exact List.count_eq_zero.1 (by split at hcnts <;> omega)
  · exact List.count_eq_zero.1 (by split at hcnt' <;> omega)
  · exact List.count_eq_zero.1 (by split at hcnt' <;> omega)

/-- C4 (witness): the loss theorem at the one-buffer pool whose index is held,
with a failing enqueue and the empty further sequence. -/
theorem pool_enqueue_failure_loses_index_witness :
    PoolStep (PoolState.mk [] [0] [] []) (PoolState.mk [] [] [] [0]) ∧
    0 ∉ (PoolState.mk [] [] [] [0]).ready ∧
    0 ∈ (PoolState.mk [] [] [] [0]).lost ∧
    0 ∉ (PoolState.mk [] [] [] [0]).ready ∧
    0 ∉ (PoolState.mk [] [] [] [0]).held :=
  pool_enqueue_failure_loses_index 1 (PoolState.mk [] [0] [] [])
    (PoolState.mk [] [] [] [0]) 0 reach_held0 (by simp) (PoolSteps.refl _)

/-- Chains consisting solely of `request_buffer` transitions. -/
inductive RequestSteps : PoolState → PoolState → Prop where
  | refl (s : PoolState) : RequestSteps s s
  | step (i : Nat) (rest held hostOwned lost : List Nat) {t : PoolState} :
      RequestSteps (PoolState.mk rest (i :: held) hostOwned lost) t →
      RequestSteps (PoolState.mk (i :: rest) held hostOwned lost) t

theorem requestSteps_reach_held (l : List Nat) :
    ∀ (r held hostOwned lost : List Nat) (i : Nat),
    ∃ t, RequestSteps (PoolState.mk (l ++ i :: r) held hostOwned lost) t ∧ i ∈ t.held ∧
      t.hostOwned = hostOwned ∧ t.lost = lost := by
  induction l with
  | nil =>
    intro r held hostOwned lost i
    exact ⟨PoolState.mk r (i :: held) hostOwned lost,
      RequestSteps.step i r held hostOwned lost (RequestSteps.refl _), by simp, rfl, rfl⟩
  | cons a l ih =>
    intro r held hostOwned lost i
    obtain ⟨t, ht, hi, hhost, hlost⟩ := ih r (a :: held) hostOwned lost i
    exact ⟨t, RequestSteps.step a (l ++ i :: r) held hostOwned lost ht, hi, hhost, hlost⟩

/-- C5 (theorem): dropping a held handle without enqueueing sends its index
back to the ready-queue in that very transition, and from there a sequence of
`request_buffer` transitions alone (no completion notification: host-owned and
lost sets untouched) reaches a state in which the same index is held again. -/
theorem pool_drop_returns_index (n : Nat) (s : PoolState) (i : Nat)
    (_hr : PoolReachable n s) (hh : i ∈ s.held) :
    PoolStep s (PoolState.mk (s.ready ++ [i]) (s.held.erase i) s.hostOwned s.lost) ∧
    i ∈ s.ready ++ [i] ∧
    ∃ t, RequestSteps (PoolState.mk (s.ready ++ [i]) (s.held.erase i) s.hostOwned s.lost) t ∧
      i ∈ t.held ∧ t.hostOwned = s.hostOwned ∧ t.lost = s.lost := by
  refine ⟨PoolStep.dropNotEnqueued s i hh, by simp, ?_⟩
  exact requestSteps_reach_held s.ready [] (s.held.erase i) s.hostOwned s.lost i

/-- C5 (witness): the drop/re-acquire theorem at the one-buffer pool whose
index is held. -/
theorem pool_drop_returns_index_witness :
    PoolStep (PoolState.mk [] [0] [] []) (PoolState.mk [0] [] [] []) ∧
    0 ∈ ([0] : List Nat) ∧
    ∃ t, RequestSteps (PoolState.mk [0] [] [] []) t ∧
      0 ∈ t.held ∧ t.hostOwned = ([] : List Nat) ∧ t.lost = ([] : List Nat) :=
  pool_drop_returns_index 1 (PoolState.mk [] [0] [] []) 0 reach_held0 (by simp)
